import Mathlib

/-!
Verification of the citation-plugin core (`src/main.ts`) against its
natural-language specification.

The development shallowly embeds the TypeScript source:

* `Entry`, `Library` and the format adapters live in `types.ts`, which is not
  part of the source tree given here; they are modelled from the spec (§3,
  §4.2, §4.3) and each such definition is marked `Modelled from the spec:`.
* `WorkerManager` (the single-flight background parse channel) lives in
  `util.ts`, also absent; its busy/blocked contract is modelled from §4.1.
* Everything in `main.ts` itself — `loadLibrary`, `getCitations`,
  `postProcessMarkdown`, the template getters — is translated directly from
  the source.

JavaScript-specific semantics that the source relies on are embedded
explicitly: `Object.fromEntries` (later keys overwrite earlier ones), the
multiline regex `^.*\[\[?@([^\]]+?)(?:[#^]+[^\]]+)?\]\]?.*$` used by
`getCitations` (greedy leading `.*`, lazy citekey group), the pathname regex
`^\/(@(.+))$` of `postProcessMarkdown`, `String.prototype.includes` and
first-occurrence `String.prototype.replace`.
-/

/-- Modelled from the spec: structured author name (§3 "authors (ordered
sequence of structured names, each with family/given parts)"); the concrete
class lives in `types.ts`, which is not under `src/`. -/
structure Author where
  family : String
  given : String
deriving DecidableEq, Repr

/-- Modelled from the spec: the normalized bibliographic record (§3 "Entry"),
produced by the adapters in `types.ts`, which is not under `src/`. -/
structure Entry where
  citekey : String
  title : String
  authors : List Author
  year : Option Int
  containerTitle : Option String
  entryType : String
  passthrough : List (String × String)
deriving DecidableEq, Repr

/-- Modelled from the spec: the Entry Store (§3, §4.3), class `Library` of
`types.ts` (not under `src/`): an immutable mapping citekey → Entry.  The
underlying association list mirrors the JavaScript object produced by
`Object.fromEntries` in `loadLibrary` (main.ts:295-299); `fromEntries` below
keeps its keys duplicate-free, matching object-key semantics. -/
structure Library where
  entries : List (String × Entry)
deriving DecidableEq, Repr

/-- JavaScript object property lookup `this.library.entries[citekey]`:
`undefined` when absent. -/
def Library.lookup (l : Library) (k : String) : Option Entry :=
  (l.entries.find? (fun p => p.1 = k)).map Prod.snd

/-- Modelled from the spec: `Library.size` (§4.3 "`size`: entry count"). -/
def Library.size (l : Library) : Nat :=
  l.entries.length

/-- One step of `Object.fromEntries`: assigning `kv` into the object `m`.
A key already present keeps its position and gets the new value; a fresh key
is appended. -/
def objAssign (m : List (String × Entry)) (kv : String × Entry) :
    List (String × Entry) :=
  if m.any (fun p => p.1 = kv.1) then
    m.map (fun p => if p.1 = kv.1 then (p.1, kv.2) else p)
  else
    m ++ [kv]

/-- Embedding of `Object.fromEntries(pairs)` as used at main.ts:296: build an object from
key/value pairs, later pairs overwriting earlier ones. -/
def fromEntries (ps : List (String × Entry)) : List (String × Entry) :=
  ps.foldl objAssign []

/- ### Citation extraction (`getCitations`, main.ts:543-558)

The source matches the multiline, global regex

    /^.*\[\[?@([^\]]+?)(?:[#^]+[^\]]+)?\]\]?.*$/gm

against the content.  Because each match spans a whole line (`^.*` … `.*$`),
`matchAll` produces at most one match per line, so the scan decomposes into a
per-line matcher.  The leading `.*` is greedy: the regex engine commits to the
rightmost position at which the bracketed-citation core can start.  The
citekey group `([^\]]+?)` is lazy: the shortest non-empty run of
non-`]` characters after `@` such that the rest of the core matches. -/

/-- The `[#^]` character class starting a locator suffix. -/
def isLocStart (c : Char) : Bool :=
  c = '#' || c = '^'

/-- Index of the first `']'` in a character list, if any. -/
def firstCloseIdx : List Char → Option Nat
  | [] => none
  | c :: rest =>
    if c = ']' then some 0 else (firstCloseIdx rest).map (· + 1)

/-- Does `(?:[#^]+[^\]]+)\]` match a prefix of `cs`?  Equivalently: `cs`
starts with a `#`/`^` character and its first `']'` sits at index ≥ 2 (at
least one locator-prefix character and one locator-body character before
it). -/
def locMatch (cs : List Char) : Bool :=
  match cs with
  | [] => false
  | c :: rest =>
    isLocStart c &&
      (match firstCloseIdx rest with
       | some j => decide (1 ≤ j)
       | none => false)

/-- Does `(?:[#^]+[^\]]+)?\]\]?.*$` match a prefix of `cs`?  Either the
optional locator group is taken and ends at a `']'`, or `cs` starts with
`']'` directly.  (`\]?` and the trailing `.*$` always succeed afterwards on a
newline-free line.) -/
def tailMatch (cs : List Char) : Bool :=
  locMatch cs ||
    (match cs with
     | ']' :: _ => true
     | _ => false)

/-- Lazy citekey group `([^\]]+?)` followed by `tailMatch`: consume non-`]`
characters one at a time (at least one), stopping at the first point where the
rest of the core matches; `acc` holds the consumed characters in reverse. -/
def citekeyAux (acc : List Char) : List Char → Option (List Char)
  | [] => none
  | c :: rest =>
    if c = ']' then none
    else if tailMatch rest then some (c :: acc).reverse
    else citekeyAux (c :: acc) rest

/-- Attempt the regex core `\[\[?@([^\]]+?)(?:[#^]+[^\]]+)?\]\]?` at the head
of `cs`; returns the captured citekey on success.  `\[?` is greedy, but when
its backtracked alternative is reached the next character is a `'['`, never
`'@'`, so the one-bracket fallback after a consumed second bracket always
fails and is omitted. -/
def refAt : List Char → Option (List Char)
  | '[' :: '[' :: '@' :: rest => citekeyAux [] rest
  | '[' :: '@' :: rest => citekeyAux [] rest
  | _ => none

/-- The greedy leading `^.*`: try start positions right to left, returning the
citekey captured at the rightmost position where the core matches. -/
def lastRef : List Char → Option (List Char)
  | [] => none
  | c :: rest =>
    match lastRef rest with
    | some k => some k
    | none => refAt (c :: rest)

/-- Per-line matcher: the single match (citekey, whole line) the regex yields
on a newline-free line, if any. -/
def lineCitation (line : List Char) : Option (String × String) :=
  (lastRef line).map (fun k => (String.mk k, String.mk line))

/-- Split on JavaScript line terminators (`\n`, `\r`), the boundaries at which
multiline `^`/`$` anchor and across which `.` never matches. -/
def splitLines : List Char → List (List Char)
  | [] => [[]]
  | c :: rest =>
    if c = '\n' || c = '\r' then [] :: splitLines rest
    else
      match splitLines rest with
      | l :: ls => (c :: l) :: ls
      | [] => [[c]]

/-- All matches of the citation regex over the content, in order: at most one
(citekey, source line) pair per line. -/
def citationMatches (content : String) : List (String × String) :=
  (splitLines content.toList).filterMap lineCitation

/-- Embedding of `getCitations` (main.ts:543-558).  `null` (here `none`) when no library is
loaded; otherwise the list of `[this.library.entries[citekey], line]` pairs,
one per regex match. -/
def getCitations (library : Option Library) (content : String) :
    Option (List (Option Entry × String)) :=
  match library with
  | none => none
  | some lib =>
    some ((citationMatches content).map (fun m => (lib.lookup m.1, m.2)))

/- ### Library construction (`loadLibrary` success path, main.ts:280-299)

The worker (worker.ts, not under `src/`) parses the raw export into a list of
raw records; `loadLibrary` then selects an adapter class and an id key by the
configured export format and builds
`new Library(Object.fromEntries(entries.map(e => [e[idKey], new adapter(e)])))`. -/

/-- The configured `this.settings.citationExportFormat` (switched on at
main.ts:284-293). -/
inductive DatabaseType
  | biblatex
  | cslJson
deriving DecidableEq, Repr

/-- Modelled from the spec: a raw format-agnostic record as produced by the
parse worker (worker.ts, not under `src/`); carries the fields §4.2 and §6
name for both input formats (`key`/`id`, `author` string vs. structured
author list, `date`/`year` vs. date-parts). -/
structure EntryData where
  key : Option String
  id : Option String
  dataTitle : Option String
  author : Option String
  authorList : List Author
  date : Option String
  year : Option String
  issuedDateParts : List Int
  dataEntryType : String
  extraFields : List (String × String)
deriving DecidableEq, Repr

/-- Leading numeric token of a string, as a natural number. -/
def leadingNat (cs : List Char) : Option Nat :=
  let ds := cs.takeWhile Char.isDigit
  if ds.isEmpty then none
  else some (ds.foldl (fun n c => n * 10 + (c.toNat - 48)) 0)

/-- Modelled from the spec: split one name of the format-A author string into
family/given parts (§4.2 "split and trimmed into structured names"), honoring
the bibliographic "Family, Given" comma convention. -/
def parseName (s : String) : Author :=
  match s.splitOn ", " with
  | f :: g :: _ => { family := f, given := g }
  | _ => { family := s, given := "" }

/-- Modelled from the spec: `EntryBibLaTeXAdapter` (types.ts, not under
`src/`): record keyed by `key`; author a single string of names joined by the
literal word "and", split and trimmed; year the leading numeric token of
`date` or `year` (§4.2 Variant A). -/
def EntryBibLaTeXAdapter (e : EntryData) : Entry where
  citekey := e.key.getD "undefined"
  title := e.dataTitle.getD ""
  authors :=
    match e.author with
    | none => []
    | some a => (a.splitOn " and ").map (fun n => parseName n.trim)
  year := ((e.date).orElse (fun _ => e.year)).bind
    (fun s => (leadingNat s.toList).map Int.ofNat)
  containerTitle := (e.extraFields.find? (fun p => p.1 = "journaltitle")).map Prod.snd
  entryType := e.dataEntryType
  passthrough := e.extraFields

/-- Modelled from the spec: `EntryCSLAdapter` (types.ts, not under `src/`):
record keyed by `id`; authors already structured `{family, given}` pairs; year
the first numeric component of the nested date-parts (§4.2 Variant B). -/
def EntryCSLAdapter (e : EntryData) : Entry where
  citekey := e.id.getD "undefined"
  title := e.dataTitle.getD ""
  authors := e.authorList
  year := e.issuedDateParts.head?
  containerTitle := (e.extraFields.find? (fun p => p.1 = "container-title")).map Prod.snd
  entryType := e.dataEntryType
  passthrough := e.extraFields

/-- The id key selected by the `switch` at main.ts:284-293: `e["key"]` for
biblatex, `e["id"]` for csl-json. -/
def idOf : DatabaseType → EntryData → Option String
  | .biblatex, e => e.key
  | .cslJson, e => e.id

/-- The adapter class selected by the same `switch`. -/
def adapterFor : DatabaseType → EntryData → Entry
  | .biblatex => EntryBibLaTeXAdapter
  | .cslJson => EntryCSLAdapter

/-- The citekey under which a record is stored: a missing id field becomes the
JavaScript object key `"undefined"`. -/
def storeKey (fmt : DatabaseType) (e : EntryData) : String :=
  (idOf fmt e).getD "undefined"

/-- Embedding of `new Library(Object.fromEntries(entries.map(e => [e[idKey],
new adapter(e)])))` (main.ts:295-299). -/
def buildLibrary (fmt : DatabaseType) (entries : List EntryData) : Library :=
  Library.mk (fromEntries (entries.map (fun e => (storeKey fmt e, adapterFor fmt e))))

/- ### Template rendering (main.ts:62-64, 336-362)

The four template getters each call handlebars `compile` on the corresponding
settings string, always passing `this.templateSettings = { noEscape: true }`,
and the compiled template is applied to a flat string variable map.  The
engine itself is external (the `handlebars` package); it is modelled from the
spec below. -/

/-- The field `private templateSettings = { noEscape: true }` (main.ts:62-64). -/
structure TemplateSettings where
  noEscape : Bool
deriving DecidableEq, Repr

/-- The compilation options object every template getter passes. -/
def templateSettings : TemplateSettings where
  noEscape := true

/-- Modelled from the spec: the HTML entity-escaping the external template
engine applies to substituted values when escaping is not disabled (§4.5
"Escaping is disabled: output must pass special markup characters … through
unescaped" — i.e. with escaping enabled these characters are rewritten). -/
def escapeChar (c : Char) : List Char :=
  if c = '&' then "&amp;".toList
  else if c = '<' then "&lt;".toList
  else if c = '>' then "&gt;".toList
  else if c = '"' then "&quot;".toList
  else if c = Char.ofNat 39 then "&#x27;".toList
  else if c = '`' then "&#x60;".toList
  else if c = '=' then "&#x3D;".toList
  else [c]

/-- Entity-escape a whole string. -/
def escapeHtml (s : String) : String :=
  String.mk (s.toList.flatMap escapeChar)

/-- Variable lookup in the flat template-variable map; a missing variable
renders as the empty string. -/
def lookupVar (vars : List (String × String)) (name : String) : String :=
  ((vars.find? (fun p => p.1 = name)).map Prod.snd).getD ""

/-- Mode of the placeholder scanner while walking the template text. -/
inductive RenderMode
  | lit
  | open1
  | invar (acc : List Char)
  | close1 (acc : List Char)
deriving DecidableEq, Repr

/-- The text substituted for one `\x7b\x7bname\x7d\x7d` placeholder: the
variable's value, entity-escaped unless escaping is disabled. -/
def renderValue (noEscape : Bool) (vars : List (String × String))
    (name : List Char) : List Char :=
  if noEscape then (lookupVar vars (String.mk name)).toList
  else (escapeHtml (lookupVar vars (String.mk name))).toList

/-- Modelled from the spec: evaluation of a compiled template (§4.5) as a
character-driven scanner: literal characters pass through; each
`\x7b\x7bname\x7d\x7d` placeholder is replaced by `renderValue`; a
malformed or unterminated placeholder is emitted as literal text. -/
def renderSM (noEscape : Bool) (vars : List (String × String))
    (mode : RenderMode) : List Char → List Char
  | [] =>
    match mode with
    | .lit => []
    | .open1 => ['\x7b']
    | .invar acc => '\x7b' :: '\x7b' :: acc
    | .close1 acc => '\x7b' :: '\x7b' :: (acc ++ ['\x7d'])
  | c :: rest =>
    match mode with
    | .lit =>
      if c = '\x7b' then renderSM noEscape vars .open1 rest
      else c :: renderSM noEscape vars .lit rest
    | .open1 =>
      if c = '\x7b' then renderSM noEscape vars (.invar []) rest
      else '\x7b' :: c :: renderSM noEscape vars .lit rest
    | .invar acc =>
      if c = '\x7d' then renderSM noEscape vars (.close1 acc) rest
      else renderSM noEscape vars (.invar (acc ++ [c])) rest
    | .close1 acc =>
      if c = '\x7d' then renderValue noEscape vars acc ++ renderSM noEscape vars .lit rest
      else '\x7b' :: '\x7b' :: (acc ++ '\x7d' :: c :: renderSM noEscape vars .lit rest)

/-- Modelled from the spec: `compile(templateSource, options)` followed by
application to a variable map (§4.5), as one function. -/
def renderTemplate (settings : TemplateSettings) (tmpl : String)
    (vars : List (String × String)) : String :=
  String.mk (renderSM settings.noEscape vars RenderMode.lit tmpl.toList)

/-- The four user-configured template strings (settings.ts, out of scope
beyond these fields; main.ts:91-99 lists them). -/
structure CitationsPluginSettings where
  literatureNoteTitleTemplate : String
  literatureNoteContentTemplate : String
  markdownCitationTemplate : String
  alternativeMarkdownCitationTemplate : String
deriving DecidableEq, Repr

/-- Embedding of `get literatureNoteTitleTemplate` (main.ts:336-341), applied
to a variable map. -/
def literatureNoteTitleTemplate (s : CitationsPluginSettings)
    (vars : List (String × String)) : String :=
  renderTemplate templateSettings s.literatureNoteTitleTemplate vars

/-- Embedding of `get literatureNoteContentTemplate` (main.ts:343-348),
applied to a variable map. -/
def literatureNoteContentTemplate (s : CitationsPluginSettings)
    (vars : List (String × String)) : String :=
  renderTemplate templateSettings s.literatureNoteContentTemplate vars

/-- Embedding of `get markdownCitationTemplate` (main.ts:350-355), applied to
a variable map. -/
def markdownCitationTemplate (s : CitationsPluginSettings)
    (vars : List (String × String)) : String :=
  renderTemplate templateSettings s.markdownCitationTemplate vars

/-- Embedding of `get alternativeMarkdownCitationTemplate` (main.ts:357-362),
applied to a variable map. -/
def alternativeMarkdownCitationTemplate (s : CitationsPluginSettings)
    (vars : List (String × String)) : String :=
  renderTemplate templateSettings s.alternativeMarkdownCitationTemplate vars

/- ### The reload path (`loadLibrary`, main.ts:255-327)

`loadLibrary` (with a configured export path) runs, in order:

1. `this.library = null` (main.ts:262-263, "Unload current library");
2. awaits `FileSystemAdapter.readLocalFile`; on resolution it hides the load
   error notifier and posts the decoded text to the single-flight worker
   channel (`WorkerManager` with `blockingChannel: true`, main.ts:66-68),
   which throws `WorkerManagerBlocked` when a parse is already in flight;
3. on worker success builds the new `Library` and assigns it (main.ts:295-300);
4. any rejection lands in the `catch` (main.ts:310-321): a
   `WorkerManagerBlocked` is swallowed silently, any other error shows the
   load-error notifier and resolves to `null`.

The busy flag and its reset on worker completion are the `WorkerManager`
contract, modelled from the spec (§4.1: `post` on Idle transitions to Busy
and dispatches; on completion, success or failure, the channel returns to
Idle; `post` while Busy fails immediately with the Blocked signal).

The state below is the process-wide mutable state these steps touch; a run is
represented as the ordered list of states observable after each atomic step,
so that a concurrent reader (e.g. `getCitations` or `postProcessMarkdown`)
sees exactly the states of this list. -/

/-- The mutable process-wide state `loadLibrary` manipulates. -/
structure PluginState where
  library : Option Library
  workerBusy : Bool
  errorNotifierShown : Bool
deriving DecidableEq, Repr

/-- Outcome of `FileSystemAdapter.readLocalFile`. -/
inductive ReadOutcome
  | failure
  | success (data : String)
deriving DecidableEq, Repr

/-- Outcome of the worker parse job. -/
inductive ParseOutcome
  | failure
  | success (entries : List EntryData)
deriving DecidableEq, Repr

/-- What one `loadLibrary` call resolves to: swallowed `WorkerManagerBlocked`
(resolving with `undefined`), a surfaced load failure (resolving with `null`
after showing the notifier), or the freshly built library. -/
inductive LoadResult
  | blocked
  | failed
  | loaded (lib : Library)
deriving DecidableEq, Repr

/-- One `loadLibrary` run: the ordered observable states after each atomic
step (`final` duplicates the last element of `states`) and the value the call
resolves with. -/
structure LoadRun where
  states : List PluginState
  final : PluginState
  result : LoadResult
deriving DecidableEq, Repr

/-- Embedding of `loadLibrary` (main.ts:255-327) as a state-trace function, for a run in
which the awaited file read and worker parse complete without interleaved
writers.  Steps: clear the library; on read success hide the notifier and
post to the worker (blocked if busy); on parse success build and assign the
new library; failures land in the catch. -/
def loadLibraryRun (fmt : DatabaseType) (s : PluginState) (read : ReadOutcome)
    (parse : ParseOutcome) : LoadRun :=
  let s1 : PluginState := { s with library := none }
  match read with
  | .failure =>
    let s2 : PluginState := { s1 with errorNotifierShown := true }
    { states := [s1, s2], final := s2, result := .failed }
  | .success _ =>
    let s2 : PluginState := { s1 with errorNotifierShown := false }
    if s2.workerBusy then
      { states := [s1, s2], final := s2, result := .blocked }
    else
      let s3 : PluginState := { s2 with workerBusy := true }
      match parse with
      | .failure =>
        let s4 : PluginState := { s3 with workerBusy := false }
        let s5 : PluginState := { s4 with errorNotifierShown := true }
        { states := [s1, s2, s3, s4, s5], final := s5, result := .failed }
      | .success entries =>
        let lib := buildLibrary fmt entries
        let s4 : PluginState := { s3 with workerBusy := false, library := some lib }
        { states := [s1, s2, s3, s4], final := s4, result := .loaded lib }

/-- Two overlapping `loadLibrary` calls: the first dispatches its parse job,
the second call runs in its entirety while that job is in flight (its `post`
hits the busy channel), then the first call's job completes.  Returns the
first call's run — whose `states` include the second call's interleaved
steps — and the second call's run. -/
def overlappedRun (fmt : DatabaseType) (s : PluginState) (parse1 : ParseOutcome)
    (read2 : ReadOutcome) (parse2 : ParseOutcome) : LoadRun × LoadRun :=
  let s1 : PluginState := { s with library := none }
  let s2 : PluginState := { s1 with errorNotifierShown := false }
  if s2.workerBusy then
    -- the first call itself found the channel busy; no overlap to build
    let r : LoadRun := { states := [s1, s2], final := s2, result := .blocked }
    (r, r)
  else
    let s3 : PluginState := { s2 with workerBusy := true }
    let second := loadLibraryRun fmt s3 read2 parse2
    let t := second.final
    match parse1 with
    | .failure =>
      let s4 : PluginState := { t with workerBusy := false }
      let s5 : PluginState := { s4 with errorNotifierShown := true }
      ({ states := [s1, s2, s3] ++ second.states ++ [s4, s5], final := s5,
         result := .failed }, second)
    | .success entries =>
      let lib := buildLibrary fmt entries
      let s4 : PluginState := { t with workerBusy := false, library := some lib }
      ({ states := [s1, s2, s3] ++ second.states ++ [s4], final := s4,
         result := .loaded lib }, second)

/- ### Markdown post-processing (`postProcessMarkdown`, main.ts:507-535)

For each internal link whose pathname matches `/^\/(@(.+))$/`, when the
citekey resolves in the library the inline citation is fetched from the
citation service; output containing the `NO_PRINTED_FORM` sentinel is
discarded (the link is left untouched), otherwise the first occurrence of the
full match in the link's innerHTML is replaced by the citation and the
`citation-link` class is added. -/

/-- The parts of an `a.internal-link` element the post-processor reads and
writes. -/
structure LinkState where
  pathname : String
  innerHTML : String
  classes : List String
deriving DecidableEq, Repr

/-- Embedding of `link.pathname.match(/^\/(@(.+))$/)`: group 1 (the full `@citekey` text)
and group 2 (the citekey), when the pathname is `/@` followed by at least one
character with no line terminator. -/
def linkPathMatch (p : String) : Option (String × String) :=
  match p.toList with
  | '/' :: '@' :: rest =>
    if rest.isEmpty then none
    else if rest.any (fun c => c = '\n' || c = '\r') then none
    else some (String.mk ('@' :: rest), String.mk rest)
  | _ => none

/-- Worker for `containsStr`: does `pat` occur as a contiguous sublist? -/
def containsStrAux (pat : List Char) : List Char → Bool
  | [] => pat.isEmpty
  | c :: rest => pat.isPrefixOf (c :: rest) || containsStrAux pat rest

/-- Embedding of `String.prototype.includes` for a pattern without special
characters: does `pat` occur as a contiguous substring? -/
def containsStr (s pat : String) : Bool :=
  containsStrAux pat.toList s.toList

/-- Worker for `replaceFirst`: splice `repl` over the first occurrence of
`pat`, if any. -/
def replaceFirstAux (pat repl : List Char) : List Char → List Char
  | [] => []
  | c :: rest =>
    if pat.isPrefixOf (c :: rest) then repl ++ (c :: rest).drop pat.length
    else c :: replaceFirstAux pat repl rest

/-- Embedding of `s.replace(pat, repl)` — JavaScript `String.prototype.replace`
with a plain string pattern replaces the first occurrence only. -/
def replaceFirst (s pat repl : String) : String :=
  String.mk (replaceFirstAux pat.toList repl.toList s.toList)

/-- The sentinel the citation service may embed when the formatting engine
produced no printed form (main.ts:525). -/
def NO_PRINTED_FORM : String :=
  "NO_PRINTED_FORM"

/-- The per-link body of `postProcessMarkdown` (main.ts:515-534).  `library`
is the current store (the whole pass is skipped when it is absent,
main.ts:512); `getCitation` abstracts `this.citationService.getCitation(_,
true)`, whose implementation (citation-service.ts) is outside `main.ts`. -/
def postProcessLink (library : Option Library) (getCitation : String → String)
    (link : LinkState) : LinkState :=
  match library with
  | none => link
  | some lib =>
    match linkPathMatch link.pathname with
    | none => link
    | some (fullMatch, citekey) =>
      match lib.lookup citekey with
      | none => link
      | some _ =>
        let citation := getCitation citekey
        if containsStr citation NO_PRINTED_FORM then link
        else
          { link with
            innerHTML := replaceFirst link.innerHTML fullMatch citation
            classes := link.classes ++ ["citation-link"] }

/- ### Sample data used by concrete instances -/

/-- A concrete normalized entry. -/
def sampleEntry : Entry where
  citekey := "smith2020"
  title := "A Study"
  authors := [{ family := "Smith", given := "Ann" }]
  year := some 2020
  containerTitle := none
  entryType := "article"
  passthrough := []

/-- A second concrete normalized entry. -/
def sampleEntryB : Entry :=
  { sampleEntry with citekey := "b2021", title := "Another Study" }

/-- A concrete two-entry store. -/
def sampleLibrary : Library :=
  Library.mk [("smith2020", sampleEntry), ("b2021", sampleEntryB)]

/-- A concrete raw biblatex-format record. -/
def sampleRecordA : EntryData where
  key := some "doe2019"
  id := none
  dataTitle := some "First Title"
  author := some "Doe, Jane and Roe, Rich"
  authorList := []
  date := some "2019-01-01"
  year := none
  issuedDateParts := []
  dataEntryType := "article"
  extraFields := []

/-- A second concrete raw record with a distinct citekey. -/
def sampleRecordA2 : EntryData :=
  { sampleRecordA with key := some "roe2018", dataTitle := some "Second Title" }

/-- A concrete two-record batch with pairwise distinct citekeys. -/
def sampleBatch : List EntryData :=
  [sampleRecordA, sampleRecordA2]

/-- A plugin state in which a store has previously been loaded, the parse
channel is idle and no error is displayed. -/
def preLoadedState : PluginState where
  library := some sampleLibrary
  workerBusy := false
  errorNotifierShown := false

/-- The two-citation line of §8. -/
def lineTwoCitations : String :=
  "[[@a2020]] and [[@b2021]] agree."

/-- The one-citation line of §8. -/
def lineOneCitation : String :=
  "See [[@smith2020]] for details."

/- ### Helper lemmas -/

/-- Unfolding `getCitations` on a present store. -/
theorem getCitations_some (lib : Library) (content : String) :
    getCitations (some lib) content =
      some ((citationMatches content).map (fun m => (lib.lookup m.1, m.2))) :=
  rfl

/-- Folding `objAssign` over pairwise-fresh keys appends each pair. -/
theorem foldl_objAssign_nodup :
    ∀ (ps acc : List (String × Entry)),
      ((acc ++ ps).map Prod.fst).Nodup → ps.foldl objAssign acc = acc ++ ps := by
  intro ps
  induction ps with
  | nil => intro acc _; simp
  | cons p ps ih =>
    intro acc h
    have hfresh : acc.any (fun q => q.1 = p.1) = false := by
      simp only [List.any_eq_false, decide_eq_true_eq]
      intro q hq
      have hp : p.1 ∈ (p :: ps).map Prod.fst := by simp
      have hdisj := (List.nodup_append.mp (by simpa using h)).2.2
      intro hqp
      exact hdisj (by simpa [hqp] using List.mem_map_of_mem Prod.fst hq) hp
    have step : objAssign acc p = acc ++ [p] := by
      simp [objAssign, hfresh]
    rw [List.foldl_cons, step, ih (acc ++ [p]) (by simpa using h)]
    simp

/-- With pairwise-distinct keys, `Object.fromEntries` keeps every pair. -/
theorem fromEntries_nodup (ps : List (String × Entry))
    (h : (ps.map Prod.fst).Nodup) : fromEntries ps = ps := by
  simpa using foldl_objAssign_nodup ps [] (by simpa using h)

/-- Association-list search over pairwise-distinct mapped keys finds each
record's own pair. -/
theorem find_map_key (fmt : DatabaseType) :
    ∀ (batch : List EntryData) (e : EntryData), e ∈ batch →
      (batch.map (storeKey fmt)).Nodup →
      (batch.map (fun x => (storeKey fmt x, adapterFor fmt x))).find?
          (fun p => p.1 = storeKey fmt e) =
        some (storeKey fmt e, adapterFor fmt e) := by
  intro batch
  induction batch with
  | nil => intro e he _; simp at he
  | cons b bs ih =>
    intro e he hnd
    rcases List.mem_cons.mp he with rfl | hbs
    · simp
    · have hnd' : (storeKey fmt b :: bs.map (storeKey fmt)).Nodup := by
        rw [List.map_cons] at hnd
        exact hnd
      have hne : storeKey fmt b ≠ storeKey fmt e := by
        intro hc
        exact (List.nodup_cons.mp hnd').1 (hc ▸ List.mem_map_of_mem (storeKey fmt) hbs)
      rw [List.map_cons, List.find?_cons_of_neg _ (by simpa using hne)]
      exact ih e hbs (List.nodup_cons.mp hnd').2

/- ### Claim C1 -/

/-- C1 (counterexample): in a successful reload starting from a state with a
loaded store, an intermediate state is observable whose store is neither the
complete pre-reload store nor the complete post-reload store — `loadLibrary`
clears the store reference at its start (main.ts:262-263), so a reader during
the reload observes an absent store. -/
theorem C1_counterexample :
    ¬ (∀ st ∈ (loadLibraryRun DatabaseType.biblatex preLoadedState
          (ReadOutcome.success "raw") (ParseOutcome.success sampleBatch)).states,
        st.library = preLoadedState.library ∨
        st.library = (loadLibraryRun DatabaseType.biblatex preLoadedState
          (ReadOutcome.success "raw") (ParseOutcome.success sampleBatch)).final.library) := by
  decide

/-- C1 (amended): during a reload a reader may also observe a transiently
absent store, because `loadLibrary` clears the reference at its start; apart
from that, every observable state holds either an absent store or the
complete final store of the run — never a partially built one.  The new store
is installed by the single assignment at the end of the success path. -/
theorem C1_observable_states (fmt : DatabaseType) (s : PluginState)
    (read : ReadOutcome) (parse : ParseOutcome) :
    ∀ st ∈ (loadLibraryRun fmt s read parse).states,
      st.library = none ∨
      st.library = (loadLibraryRun fmt s read parse).final.library := by
  intro st hst
  rcases read with _ | d
  · simp [loadLibraryRun] at hst ⊢
    rcases hst with rfl | rfl <;> simp
  · cases hb : s.workerBusy with
    | true =>
      simp [loadLibraryRun, hb] at hst ⊢
      rcases hst with rfl | rfl <;> simp
    | false =>
      rcases parse with _ | entries
      · simp [loadLibraryRun, hb] at hst ⊢
        rcases hst with rfl | rfl | rfl | rfl | rfl <;> simp
      · simp [loadLibraryRun, hb] at hst ⊢
        rcases hst with rfl | rfl | rfl | rfl <;> simp

/-- C1 (witness): the amended theorem applied to the first observable state
of a concrete successful reload. -/
theorem C1_observable_states_witness :
    ({ preLoadedState with library := none } : PluginState).library = none ∨
    ({ preLoadedState with library := none } : PluginState).library =
      (loadLibraryRun DatabaseType.biblatex preLoadedState
        (ReadOutcome.success "raw") (ParseOutcome.success sampleBatch)).final.library :=
  C1_observable_states DatabaseType.biblatex preLoadedState
    (ReadOutcome.success "raw") (ParseOutcome.success sampleBatch)
    { preLoadedState with library := none } (by decide)

/- ### Claim C2 -/

/-- C2 (counterexample): a reload that fails at the I/O level from a state
with a previously loaded store does not leave the store at its previous
value: `loadLibrary` cleared it at the start and the catch path (main.ts:
310-321) never restores it. -/
theorem C2_counterexample :
    preLoadedState.library = some sampleLibrary ∧
    (loadLibraryRun DatabaseType.biblatex preLoadedState ReadOutcome.failure
      (ParseOutcome.success sampleBatch)).result = LoadResult.failed ∧
    (loadLibraryRun DatabaseType.biblatex preLoadedState ReadOutcome.failure
      (ParseOutcome.success sampleBatch)).final.library ≠ preLoadedState.library := by
  decide

/-- C2 (amended): after a reload that fails at the I/O or parse level (a
non-Blocked failure), the library field is absent — regardless of whether a
store was previously loaded — and the load-error notifier is shown:
`loadLibrary` clears the field at its start and the failure path never
restores the previous value. -/
theorem C2_failed_load_clears_store (fmt : DatabaseType) (s : PluginState)
    (read : ReadOutcome) (parse : ParseOutcome)
    (h : (loadLibraryRun fmt s read parse).result = LoadResult.failed) :
    (loadLibraryRun fmt s read parse).final.library = none ∧
    (loadLibraryRun fmt s read parse).final.errorNotifierShown = true := by
  rcases read with _ | d
  · simp [loadLibraryRun]
  · cases hb : s.workerBusy with
    | true => simp [loadLibraryRun, hb] at h
    | false =>
      rcases parse with _ | entries
      · simp [loadLibraryRun, hb]
      · simp [loadLibraryRun, hb] at h

/-- C2 (witness): the amended theorem applied to a concrete failing reload
from a state with a loaded store. -/
theorem C2_failed_load_clears_store_witness :
    (loadLibraryRun DatabaseType.biblatex preLoadedState ReadOutcome.failure
      (ParseOutcome.success sampleBatch)).final.library = none ∧
    (loadLibraryRun DatabaseType.biblatex preLoadedState ReadOutcome.failure
      (ParseOutcome.success sampleBatch)).final.errorNotifierShown = true :=
  C2_failed_load_clears_store DatabaseType.biblatex preLoadedState
    ReadOutcome.failure (ParseOutcome.success sampleBatch) (by decide)

/- ### Claim C3 -/

/-- C3: a second reload issued while the first is in flight (its file read
having succeeded, so the request reaches the parse channel) resolves with the
Blocked signal, caught silently — the second call's run ends with the
load-error notifier not shown — and the first call's result and final store
are identical to those of an undisturbed run. -/
theorem C3_second_reload_blocked (fmt : DatabaseType) (s : PluginState)
    (parse1 : ParseOutcome) (read2 : ReadOutcome) (parse2 : ParseOutcome)
    (data1 data2 : String) (hidle : s.workerBusy = false)
    (hread2 : read2 = ReadOutcome.success data2) :
    (overlappedRun fmt s parse1 read2 parse2).2.result = LoadResult.blocked ∧
    (overlappedRun fmt s parse1 read2 parse2).2.final.errorNotifierShown = false ∧
    (overlappedRun fmt s parse1 read2 parse2).1.result =
      (loadLibraryRun fmt s (ReadOutcome.success data1) parse1).result ∧
    (overlappedRun fmt s parse1 read2 parse2).1.final.library =
      (loadLibraryRun fmt s (ReadOutcome.success data1) parse1).final.library := by
  subst hread2
  rcases parse1 with _ | entries <;>
    simp [overlappedRun, loadLibraryRun, hidle]

/-- C3 (witness): the theorem applied to a concrete overlapping pair of
reloads from an idle pre-loaded state. -/
theorem C3_second_reload_blocked_witness :
    (overlappedRun DatabaseType.biblatex preLoadedState
      (ParseOutcome.success sampleBatch) (ReadOutcome.success "raw2")
      ParseOutcome.failure).2.result = LoadResult.blocked ∧
    (overlappedRun DatabaseType.biblatex preLoadedState
      (ParseOutcome.success sampleBatch) (ReadOutcome.success "raw2")
      ParseOutcome.failure).2.final.errorNotifierShown = false ∧
    (overlappedRun DatabaseType.biblatex preLoadedState
      (ParseOutcome.success sampleBatch) (ReadOutcome.success "raw2")
      ParseOutcome.failure).1.result =
      (loadLibraryRun DatabaseType.biblatex preLoadedState
        (ReadOutcome.success "raw1") (ParseOutcome.success sampleBatch)).result ∧
    (overlappedRun DatabaseType.biblatex preLoadedState
      (ParseOutcome.success sampleBatch) (ReadOutcome.success "raw2")
      ParseOutcome.failure).1.final.library =
      (loadLibraryRun DatabaseType.biblatex preLoadedState
        (ReadOutcome.success "raw1") (ParseOutcome.success sampleBatch)).final.library :=
  C3_second_reload_blocked DatabaseType.biblatex preLoadedState
    (ParseOutcome.success sampleBatch) (ReadOutcome.success "raw2")
    ParseOutcome.failure "raw1" "raw2" (by decide) rfl

/- ### Claim C4 -/

/-- C4 (counterexample): on the two-citation line the extractor returns
exactly one occurrence, not two — the regex consumes the whole line per
match, and its greedy leading part commits to the rightmost reference, so the
single occurrence carries citekey `b2021`. -/
theorem C4_counterexample :
    getCitations (some sampleLibrary) lineTwoCitations =
      some [(sampleLibrary.lookup "b2021", lineTwoCitations)] ∧
    ((getCitations (some sampleLibrary) lineTwoCitations).getD []).length ≠ 2 := by
  decide

/-- C4 (amended): for the input line with two citation references and any
loaded store, citation extraction returns exactly one occurrence — for the
rightmost citekey `b2021` — carrying the entire line as its source-line
context; in general every line yields at most one occurrence, so the number
of occurrences is bounded by the number of lines, not by the number of
citation references. -/
theorem C4_one_occurrence_per_line (lib : Library) :
    getCitations (some lib) lineTwoCitations =
      some [(lib.lookup "b2021", lineTwoCitations)] ∧
    ∀ content : String,
      ((getCitations (some lib) content).getD []).length ≤
        (splitLines content.toList).length := by
  constructor
  · rw [getCitations_some,
      show citationMatches lineTwoCitations = [("b2021", lineTwoCitations)] by decide]
    rfl
  · intro content
    rw [getCitations_some]
    simp only [Option.getD_some, List.length_map, citationMatches]
    exact List.length_filterMap_le _ _

/- ### Claim C5 -/

/-- C5: for the line with the single reference `[[@smith2020]]` and any
loaded store, extraction returns exactly one occurrence whose citekey is
`smith2020` (resolved through the store) and whose source line is the whole
input line. -/
theorem C5_single_citation (lib : Library) :
    getCitations (some lib) lineOneCitation =
      some [(lib.lookup "smith2020", lineOneCitation)] := by
  rw [getCitations_some,
    show citationMatches lineOneCitation = [("smith2020", lineOneCitation)] by decide]
  rfl

/- ### Claim C6 -/

/-- C6: extraction always returns a list when a store is loaded (it never
fails), and every matched citekey that is absent from the store still yields
an occurrence whose entry component is absent. -/
theorem C6_unresolved_citekey (lib : Library) (content : String) :
    (getCitations (some lib) content).isSome = true ∧
    ∀ m ∈ citationMatches content, lib.lookup m.1 = none →
      ((none : Option Entry), m.2) ∈ (getCitations (some lib) content).getD [] := by
  refine ⟨by rw [getCitations_some]; rfl, ?_⟩
  intro m hm hnone
  rw [getCitations_some]
  simp only [Option.getD_some]
  have hmem : (lib.lookup m.1, m.2) ∈
      (citationMatches content).map (fun m => (lib.lookup m.1, m.2)) :=
    List.mem_map_of_mem _ hm
  rwa [hnone] at hmem

/-- C6 (witness): the theorem applied to a concrete text whose citekey is
absent from the concrete store. -/
theorem C6_unresolved_citekey_witness :
    (getCitations (some sampleLibrary) "[[@nope]]").isSome = true ∧
    ((none : Option Entry), "[[@nope]]") ∈
      (getCitations (some sampleLibrary) "[[@nope]]").getD [] :=
  ⟨(C6_unresolved_citekey sampleLibrary "[[@nope]]").1,
   (C6_unresolved_citekey sampleLibrary "[[@nope]]").2 ("nope", "[[@nope]]")
     (by decide) (by decide)⟩

/- ### Claim C7 -/

/-- C7: extraction with no store loaded returns `null` (`none`) for every
input, which is distinct from the `some []` returned when a store is loaded
but the text contains no matches; neither case raises a failure. -/
theorem C7_absent_store_distinct (content quiet : String) (lib : Library)
    (h : citationMatches quiet = []) :
    getCitations none content = none ∧
    getCitations (some lib) quiet = some [] ∧
    getCitations none content ≠ getCitations (some lib) quiet := by
  refine ⟨rfl, ?_, ?_⟩
  · rw [getCitations_some, h]
    rfl
  · rw [getCitations_some, h]
    simp [getCitations]

/-- C7 (witness): the theorem applied to concrete texts with and without
matches. -/
theorem C7_absent_store_distinct_witness :
    getCitations none "[[@a]]" = none ∧
    getCitations (some sampleLibrary) "no citations here" = some [] ∧
    getCitations none "[[@a]]" ≠ getCitations (some sampleLibrary) "no citations here" :=
  C7_absent_store_distinct "[[@a]]" "no citations here" sampleLibrary (by decide)

/- ### Claim C8 -/

/-- The template source consisting of the single `title` placeholder. -/
def titlePlaceholder : String := "\x7b\x7btitle\x7d\x7d"

/-- A settings object configuring the title placeholder as all four
user-supplied templates. -/
def placeholderSettings : CitationsPluginSettings where
  literatureNoteTitleTemplate := titlePlaceholder
  literatureNoteContentTemplate := titlePlaceholder
  markdownCitationTemplate := titlePlaceholder
  alternativeMarkdownCitationTemplate := titlePlaceholder

/-- C8: every template the plugin compiles is compiled with escaping disabled
(`templateSettings.noEscape`), so rendering the `title` placeholder passes
any value — in particular `Foo & Bar` — through verbatim, for each of the
four logical templates. -/
theorem C8_no_entity_escaping :
    templateSettings.noEscape = true ∧
    (∀ v : String,
      renderTemplate templateSettings titlePlaceholder [("title", v)] = v) ∧
    literatureNoteTitleTemplate placeholderSettings [("title", "Foo & Bar")] = "Foo & Bar" ∧
    literatureNoteContentTemplate placeholderSettings [("title", "Foo & Bar")] = "Foo & Bar" ∧
    markdownCitationTemplate placeholderSettings [("title", "Foo & Bar")] = "Foo & Bar" ∧
    alternativeMarkdownCitationTemplate placeholderSettings [("title", "Foo & Bar")] = "Foo & Bar" := by
  refine ⟨rfl, ?_, by decide, by decide, by decide, by decide⟩
  intro v
  obtain ⟨data⟩ := v
  show String.mk (data ++ []) = String.mk data
  rw [List.append_nil]

/- ### Claim C9 -/

/-- C9: for a well-formed batch (every record carries its format's id field)
with pairwise distinct citekeys, the constructed store has exactly one entry
per record — its size equals the batch length — and each record is found
under its own `key`/`id` as the adapter's normalization of that record. -/
theorem C9_store_construction (fmt : DatabaseType) (batch : List EntryData)
    (hwf : ∀ e ∈ batch, (idOf fmt e).isSome = true)
    (hkeys : (batch.map (storeKey fmt)).Nodup) :
    (buildLibrary fmt batch).size = batch.length ∧
    ∀ e ∈ batch,
      (buildLibrary fmt batch).lookup (storeKey fmt e) =
        some (adapterFor fmt e) := by
  have hmapkeys :
      ((batch.map (fun e => (storeKey fmt e, adapterFor fmt e))).map Prod.fst).Nodup := by
    simpa [List.map_map, Function.comp] using hkeys
  have hfe :
      fromEntries (batch.map (fun e => (storeKey fmt e, adapterFor fmt e))) =
        batch.map (fun e => (storeKey fmt e, adapterFor fmt e)) :=
    fromEntries_nodup _ hmapkeys
  constructor
  · show (fromEntries _).length = _
    rw [hfe, List.length_map]
  · intro e he
    show ((fromEntries _).find? _).map Prod.snd = _
    rw [hfe, find_map_key fmt batch e he hkeys]
    rfl

/-- C9 (witness): the theorem applied to the concrete two-record biblatex
batch. -/
theorem C9_store_construction_witness :
    (buildLibrary DatabaseType.biblatex sampleBatch).size = sampleBatch.length ∧
    ∀ e ∈ sampleBatch,
      (buildLibrary DatabaseType.biblatex sampleBatch).lookup
          (storeKey DatabaseType.biblatex e) =
        some (adapterFor DatabaseType.biblatex e) :=
  C9_store_construction DatabaseType.biblatex sampleBatch (by decide) (by decide)

/- ### Claim C10 -/

/-- C10: for a link whose pathname carries a citekey resolved by the store,
if the formatting engine's output contains the `NO_PRINTED_FORM` sentinel the
link is left entirely unchanged — the sentinel text is never inserted — and
any output not containing the sentinel is inserted in place of the matched
`@citekey` text. -/
theorem C10_sentinel_suppressed (lib : Library) (getCitation : String → String)
    (link : LinkState) (fullMatch citekey : String) (e : Entry)
    (hmatch : linkPathMatch link.pathname = some (fullMatch, citekey))
    (hentry : lib.lookup citekey = some e) :
    (containsStr (getCitation citekey) NO_PRINTED_FORM = true →
      postProcessLink (some lib) getCitation link = link) ∧
    (containsStr (getCitation citekey) NO_PRINTED_FORM = false →
      postProcessLink (some lib) getCitation link =
        { link with
            innerHTML := replaceFirst link.innerHTML fullMatch (getCitation citekey)
            classes := link.classes ++ ["citation-link"] }) := by
  constructor <;> intro hc <;> simp [postProcessLink, hmatch, hentry, hc]

/-- A concrete rendered internal link for the `smith2020` citekey. -/
def sampleLink : LinkState where
  pathname := "/@smith2020"
  innerHTML := "@smith2020"
  classes := []

/-- C10 (witness): the theorem applied to a concrete link, store and
formatting engine that returns the bare sentinel. -/
theorem C10_sentinel_suppressed_witness :
    (containsStr ((fun _ => NO_PRINTED_FORM) "smith2020") NO_PRINTED_FORM = true →
      postProcessLink (some sampleLibrary) (fun _ => NO_PRINTED_FORM) sampleLink = sampleLink) ∧
    (containsStr ((fun _ => NO_PRINTED_FORM) "smith2020") NO_PRINTED_FORM = false →
      postProcessLink (some sampleLibrary) (fun _ => NO_PRINTED_FORM) sampleLink =
        { sampleLink with
            innerHTML := replaceFirst sampleLink.innerHTML "@smith2020"
              ((fun _ => NO_PRINTED_FORM) "smith2020")
            classes := sampleLink.classes ++ ["citation-link"] }) :=
  C10_sentinel_suppressed sampleLibrary (fun _ => NO_PRINTED_FORM) sampleLink
    "@smith2020" "smith2020" sampleEntry (by decide) (by decide)
